import Mathlib

/-!
Shallow embedding of the `wellplate_analysis` package (files
`processing.py`, `calibration.py`, `run_pipeline.py`) and proofs about it.

Modelling conventions:
* A pandas `DataFrame` is a `Table`: a row index (list of cell values), a
  list of column names, and the rows (lists of cells).  Cell values are the
  dynamically typed values the pipeline actually stores: a missing-data
  marker (`pd.NA` / dropped `NaN`), a number (modelled by `ℚ`; the source
  works with Python ints/floats), a string (the overflow sentinel, column
  labels stored as data), or a `datetime.time`-like time-of-day value.
* Fallible Python code (raising `KeyError`, `ValueError`,
  `UnboundLocalError`, ...) is modelled with `Except String`.
* The tables this pipeline builds (`io.load_xlsx` puts the header row into
  `columns` and resets the index to `0..n-1`) carry their data in columns of
  `object` dtype; row iteration such as `for i in df.index: df.iloc[i, j]`
  is positional because the index is `0..n-1` at every such call site, and
  is modelled positionally.
-/

attribute [local semireducible] Rat.add Rat.mul Rat.inv Rat.ofScientific Rat.sub

namespace Wellplate

/-- A dynamically typed cell of a pandas table: missing marker, number,
string, or a time-of-day value with hour/minute/second components. -/
inductive Cell where
  | na : Cell
  | num (q : ℚ) : Cell
  | str (s : String) : Cell
  | time (h m s : ℕ) : Cell
deriving DecidableEq, Repr

/-- A pandas `DataFrame`: row-index values, column names, and rows of cells.
The tables built by this pipeline are rectangular (`row.length = cols.length`
for every row); operations that need this assume it explicitly. -/
structure Table where
  index : List Cell
  cols : List String
  rows : List (List Cell)
deriving DecidableEq, Repr

instance {e a : Type} [DecidableEq e] [DecidableEq a] : DecidableEq (Except e a) :=
  fun x y =>
    match x, y with
    | Except.ok u, Except.ok v =>
        if h : u = v then isTrue (by rw [h]) else isFalse (by simp [h])
    | Except.error u, Except.error v =>
        if h : u = v then isTrue (by rw [h]) else isFalse (by simp [h])
    | Except.ok _, Except.error _ => isFalse (by simp)
    | Except.error _, Except.ok _ => isFalse (by simp)

/-- The cell of table `t` at row position `i`, column position `j`
(`none` when out of range). -/
def cellAt (t : Table) (i j : ℕ) : Option Cell :=
  (t.rows.get? i).bind (fun row => row.get? j)

/-- Domain of the `integer` keyword of `handle_ovrflw` and of the YAML value
`clean.replacement`: Python `False` (the default), a number, or a string. -/
inductive PyOpt where
  | fls : PyOpt
  | num (q : ℚ) : PyOpt
  | str (s : String) : PyOpt
deriving DecidableEq, Repr

/-- The Python test `integer != False`: `False != False` is `False`;
for a number `q`, `q != False` is `q != 0` (since `False == 0`);
a string is never equal to `False`. -/
def PyOpt.neFalse : PyOpt → Bool
  | .fls => false
  | .num q => decide (q ≠ 0)
  | .str _ => true

/-- The cell stored when a substitute value is written into the table. -/
def PyOpt.toCell : PyOpt → Cell
  | .fls => Cell.na
  | .num q => Cell.num q
  | .str s => Cell.str s

/-- The value written over an `"OVRFLW"` cell by `handle_ovrflw`:
the substitute if `integer != False`, else `pd.NA`. -/
def ovrflwRepl (integer : PyOpt) : Cell :=
  if integer.neFalse then integer.toCell else Cell.na

/-- The Python comparison `df.iloc[i,j] == "OVRFLW"` evaluated in the
boolean context of the `if`: a string compares by equality; comparing
`pd.NA` yields `pd.NA`, whose truth value raises
`TypeError: boolean value of NA is ambiguous`; every other value (numbers,
times, the `None` markers of freshly loaded sheets) compares unequal. -/
def isOvrflw : Cell → Except String Bool
  | Cell.na => Except.error "TypeError: boolean value of NA is ambiguous"
  | Cell.str s => Except.ok (decide (s = "OVRFLW"))
  | _ => Except.ok false

/-- One row of the `handle_ovrflw` scan: cells are visited with their
column position `j` (starting from `j0`); at a column position `j > 1`
(and `j < ncols`, since the source iterates `enumerate(df.columns)`) the
cell is compared with the sentinel — raising on `pd.NA` — and replaced
when the comparison holds; all other cells are kept. -/
def ovrflwScan (integer : PyOpt) (ncols : ℕ) : ℕ → List Cell → Except String (List Cell)
  | _, [] => Except.ok []
  | j, c :: cs => do
      let b ← (if 1 < j ∧ j < ncols then isOvrflw c else Except.ok false)
      let rest ← ovrflwScan integer ncols (j + 1) cs
      Except.ok ((if b then ovrflwRepl integer else c) :: rest)

/-- The row the scan produces when it does not raise: a cell at a scanned
position (`j > 1`, `j < ncols`) holding the sentinel string becomes the
replacement, everything else is kept. -/
def cleanedCells (integer : PyOpt) (ncols : ℕ) : ℕ → List Cell → List Cell
  | _, [] => []
  | j, c :: cs =>
      (if 1 < j ∧ j < ncols ∧ c = Cell.str "OVRFLW" then ovrflwRepl integer else c)
        :: cleanedCells integer ncols (j + 1) cs

/-- Whether no scanned cell (column position `j > 1`, `j < ncols`) is the
`pd.NA` marker — exactly the condition under which the scan of the row
does not raise. -/
def noScannedNA (ncols : ℕ) : ℕ → List Cell → Bool
  | _, [] => true
  | j, c :: cs =>
      (decide (¬(1 < j ∧ j < ncols)) || decide (c ≠ Cell.na))
        && noScannedNA ncols (j + 1) cs

/-- Whether no scanned cell is the sentinel string. -/
def noScannedSentinel (ncols : ℕ) : ℕ → List Cell → Bool
  | _, [] => true
  | j, c :: cs =>
      (decide (¬(1 < j ∧ j < ncols)) || decide (c ≠ Cell.str "OVRFLW"))
        && noScannedSentinel ncols (j + 1) cs

/-- `processing.handle_ovrflw`: for every column position `j > 1` and
every row, a cell equal to the string `"OVRFLW"` is replaced by the
substitute (`integer`, when it passes the `integer != False` test) or by
`pd.NA`; comparing a scanned `pd.NA` cell with the sentinel raises
`TypeError`, so the function is fallible. -/
def handle_ovrflw (t : Table) (integer : PyOpt) : Except String Table := do
  let rows ← t.rows.mapM (ovrflwScan integer t.cols.length 0)
  Except.ok { t with rows := rows }

/-- Every scanned cell of every row of `t` is free of `pd.NA` (true of any
freshly loaded table, whose missing markers are `None`). -/
def tableScanNaFree (t : Table) : Bool :=
  t.rows.all (noScannedNA t.cols.length 0)

theorem mapM_except_eq_ok_map {α β : Type} (f : α → Except String β) (g : α → β) :
    ∀ (l : List α), (∀ x ∈ l, f x = Except.ok (g x)) →
      l.mapM f = Except.ok (l.map g)
  | [], _ => rfl
  | x :: xs, h => by
      have hx := h x (List.mem_cons_self x xs)
      have ih := mapM_except_eq_ok_map f g xs (fun y hy => h y (List.mem_cons_of_mem x hy))
      rw [List.mapM_cons, hx, ih]
      rfl

theorem except_bind_ok {e a b : Type} (x : a) (f : a → Except e b) :
    (Except.ok x : Except e a).bind f = f x := rfl

theorem noScannedNA_cons (ncols j : ℕ) (c : Cell) (cs : List Cell)
    (h : noScannedNA ncols j (c :: cs) = true) :
    ((¬(1 < j ∧ j < ncols)) ∨ c ≠ Cell.na) ∧ noScannedNA ncols (j + 1) cs = true := by
  simp only [noScannedNA, Bool.and_eq_true, Bool.or_eq_true, decide_eq_true_eq] at h
  exact h

theorem noScannedSentinel_cons (ncols j : ℕ) (c : Cell) (cs : List Cell)
    (h : noScannedSentinel ncols j (c :: cs) = true) :
    ((¬(1 < j ∧ j < ncols)) ∨ c ≠ Cell.str "OVRFLW")
      ∧ noScannedSentinel ncols (j + 1) cs = true := by
  simp only [noScannedSentinel, Bool.and_eq_true, Bool.or_eq_true, decide_eq_true_eq] at h
  exact h

theorem ovrflwScan_ok (integer : PyOpt) (ncols : ℕ) :
    ∀ (j : ℕ) (l : List Cell), noScannedNA ncols j l = true →
      ovrflwScan integer ncols j l = Except.ok (cleanedCells integer ncols j l)
  | _, [], _ => rfl
  | j, c :: cs, h => by
      have hparts := noScannedNA_cons ncols j c cs h
      have ih := ovrflwScan_ok integer ncols (j + 1) cs hparts.2
      simp only [ovrflwScan, cleanedCells, ih]
      by_cases hj : 1 < j ∧ j < ncols
      · have hc : c ≠ Cell.na := by
          rcases hparts.1 with hcon | hcne
          · exact absurd hj hcon
          · exact hcne
        rw [if_pos hj]
        cases c with
        | na => exact absurd rfl hc
        | str s =>
            by_cases hs : s = "OVRFLW"
            · subst hs
              rw [if_pos ⟨hj.1, hj.2, rfl⟩]
              have hb : isOvrflw (Cell.str "OVRFLW") = Except.ok true := by
                simp [isOvrflw]
              rw [hb]
              rfl
            · have hb : isOvrflw (Cell.str s) = Except.ok false := by
                simp [isOvrflw, hs]
              rw [if_neg (by simp [hs]), hb]
              rfl
        | num q =>
            rw [if_neg (by simp)]
            rfl
        | time hh mm ss =>
            rw [if_neg (by simp)]
            rfl
      · rw [if_neg hj, if_neg (fun hcon => hj ⟨hcon.1, hcon.2.1⟩)]
        rfl

theorem ovrflwRepl_ne_na (integer : PyOpt) (h : integer.neFalse = true) :
    ovrflwRepl integer ≠ Cell.na := by
  cases integer with
  | fls => simp [PyOpt.neFalse] at h
  | num q =>
      simp only [ovrflwRepl, h, if_true]
      simp [PyOpt.toCell]
  | str s =>
      simp only [ovrflwRepl, h, if_true]
      simp [PyOpt.toCell]

theorem cleanedCells_naFree (integer : PyOpt) (ncols : ℕ) :
    ∀ (j : ℕ) (l : List Cell), noScannedNA ncols j l = true →
      (integer.neFalse = true ∨ noScannedSentinel ncols j l = true) →
      noScannedNA ncols j (cleanedCells integer ncols j l) = true
  | _, [], _, _ => rfl
  | j, c :: cs, hna, hsub => by
      have hna2 := noScannedNA_cons ncols j c cs hna
      have hsub2 : integer.neFalse = true ∨ noScannedSentinel ncols (j + 1) cs = true := by
        rcases hsub with h | h
        · exact Or.inl h
        · exact Or.inr (noScannedSentinel_cons ncols j c cs h).2
      have ih := cleanedCells_naFree integer ncols (j + 1) cs hna2.2 hsub2
      simp only [cleanedCells, noScannedNA, Bool.and_eq_true, Bool.or_eq_true,
        decide_eq_true_eq, ih, and_true]
      by_cases hj : 1 < j ∧ j < ncols
      · right
        by_cases hcond : 1 < j ∧ j < ncols ∧ c = Cell.str "OVRFLW"
        · rw [if_pos hcond]
          rcases hsub with htr | hsent
          · exact ovrflwRepl_ne_na integer htr
          · exfalso
            rcases (noScannedSentinel_cons ncols j c cs hsent).1 with hcon | hcne
            · exact hcon hj
            · exact hcne hcond.2.2
        · rw [if_neg hcond]
          rcases hna2.1 with hcon | hcne
          · exact absurd hj hcon
          · exact hcne
      · left
        exact hj

theorem cleanedCells_get? (integer : PyOpt) (ncols : ℕ) :
    ∀ (l : List Cell) (j0 k : ℕ),
      (cleanedCells integer ncols j0 l).get? k = (l.get? k).map (fun c =>
        if 1 < j0 + k ∧ j0 + k < ncols ∧ c = Cell.str "OVRFLW" then ovrflwRepl integer else c)
  | [], _, _ => by simp [cleanedCells]
  | c :: cs, j0, 0 => by simp [cleanedCells]
  | c :: cs, j0, k + 1 => by
      have ih := cleanedCells_get? integer ncols cs (j0 + 1) k
      simp only [cleanedCells, List.get?]
      rw [ih]
      have harith : j0 + 1 + k = j0 + (k + 1) := by omega
      rw [harith]

theorem cleanedCells_length (integer : PyOpt) (ncols : ℕ) :
    ∀ (j0 : ℕ) (l : List Cell), (cleanedCells integer ncols j0 l).length = l.length
  | _, [] => rfl
  | j0, c :: cs => by
      simp only [cleanedCells, List.length_cons]
      rw [cleanedCells_length integer ncols (j0 + 1) cs]

theorem cleanedCells_idem (integer : PyOpt) (n : ℕ) :
    ∀ (j : ℕ) (l : List Cell),
      cleanedCells integer n j (cleanedCells integer n j l) = cleanedCells integer n j l
  | _, [] => rfl
  | j, c :: cs => by
      simp only [cleanedCells]
      rw [cleanedCells_idem integer n (j + 1) cs]
      congr 1
      by_cases h : 1 < j ∧ j < n ∧ c = Cell.str "OVRFLW"
      · rw [if_pos h]
        by_cases h2 : ovrflwRepl integer = Cell.str "OVRFLW"
        · rw [if_pos ⟨h.1, h.2.1, h2⟩, h2]
        · rw [if_neg (fun hc => h2 hc.2.2)]
      · rw [if_neg h, if_neg h]

/-- Sanity check: without a substitute, a sentinel in a value column turns
into the missing marker and a sentinel in the first two columns stays. -/
theorem handle_ovrflw_default_example :
    handle_ovrflw
      { index := [Cell.num 0], cols := ["Time", "Temp", "A1"],
        rows := [[Cell.str "x", Cell.str "OVRFLW", Cell.str "OVRFLW"]] }
      PyOpt.fls
    = Except.ok
      { index := [Cell.num 0], cols := ["Time", "Temp", "A1"],
        rows := [[Cell.str "x", Cell.str "OVRFLW", Cell.na]] } := by decide

/-- Sanity check: a nonzero substitute is written over the sentinel. -/
theorem handle_ovrflw_substitute_example :
    handle_ovrflw
      { index := [Cell.num 0], cols := ["Time", "Temp", "A1"],
        rows := [[Cell.str "x", Cell.num 1, Cell.str "OVRFLW"]] }
      (PyOpt.num 70000)
    = Except.ok
      { index := [Cell.num 0], cols := ["Time", "Temp", "A1"],
        rows := [[Cell.str "x", Cell.num 1, Cell.num 70000]] } := by decide

/-- Table used to settle C6 (its scanned cells carry no `pd.NA`). -/
def sampleC6 : Table :=
  { index := [Cell.num 0], cols := ["Time", "Temp", "A1"],
    rows := [[Cell.str "x", Cell.num 1, Cell.str "OVRFLW"]] }

/-- C6 counterexample: the claim says a cell holding the overflow sentinel
becomes the substitute value whenever a substitute is provided; but with the
provided substitute `0` the source test `integer != False` is false
(Python `0 == False`), so the cell becomes the missing-data marker `pd.NA`
instead of the substitute `0`. -/
theorem handle_ovrflw_zero_substitute_cex :
    (handle_ovrflw sampleC6 (PyOpt.num 0)).map (fun u => cellAt u 0 2)
      = Except.ok (some Cell.na) ∧ Cell.na ≠ (PyOpt.num 0).toCell := by
  exact ⟨by decide, by decide⟩

/-- C6 (amended): on every table whose scanned cells hold no `pd.NA`
marker (any freshly loaded table — comparing a scanned `pd.NA` with the
sentinel would raise `TypeError`, see the C7 counterexample),
`handle_ovrflw` succeeds and replaces exactly the cells outside the first
two columns that hold the overflow sentinel string `"OVRFLW"`: each such
cell becomes the substitute value whenever a substitute is provided and is
not Python-falsy (the source tests `integer != False`, so a substitute
equal to `0` or `False` behaves as if none were given), and the
missing-data marker otherwise; all other cells and the first two columns
are unchanged, and the output has the same shape (index, columns, row
count, row lengths) as the input. -/
theorem handle_ovrflw_spec (t : Table) (integer : PyOpt)
    (hna : tableScanNaFree t = true) :
    handle_ovrflw t integer = Except.ok
      { index := t.index, cols := t.cols,
        rows := t.rows.map (cleanedCells integer t.cols.length 0) } ∧
    (t.rows.map (cleanedCells integer t.cols.length 0)).length = t.rows.length ∧
    (∀ i, ((t.rows.map (cleanedCells integer t.cols.length 0)).get? i).map List.length
        = (t.rows.get? i).map List.length) ∧
    (∀ i j, ((t.rows.map (cleanedCells integer t.cols.length 0)).get? i).bind
        (fun row => row.get? j) = (cellAt t i j).map (fun c =>
      if 1 < j ∧ j < t.cols.length ∧ c = Cell.str "OVRFLW" then
        (if integer.neFalse then integer.toCell else Cell.na) else c)) := by
  have hall : ∀ row ∈ t.rows, noScannedNA t.cols.length 0 row = true := by
    simpa [tableScanNaFree, List.all_eq_true] using hna
  refine ⟨?_, by simp, ?_, ?_⟩
  · unfold handle_ovrflw
    rw [mapM_except_eq_ok_map _ _ t.rows (fun row hrow =>
      ovrflwScan_ok integer t.cols.length 0 row (hall row hrow))]
    rfl
  · intro i
    simp only [List.get?_map]
    cases t.rows.get? i with
    | none => rfl
    | some row => simp [cleanedCells_length]
  · intro i j
    simp only [cellAt, List.get?_map]
    cases t.rows.get? i with
    | none => rfl
    | some row =>
        have h := cleanedCells_get? integer t.cols.length row 0 j
        simp only [Option.map_some', Option.some_bind]
        rw [h]
        simp [ovrflwRepl]

/-- Witness for `handle_ovrflw_spec` at a concrete table. -/
theorem handle_ovrflw_spec_witness :
    tableScanNaFree sampleC6 = true ∧
    handle_ovrflw sampleC6 (PyOpt.num 0) = Except.ok
      { index := sampleC6.index, cols := sampleC6.cols,
        rows := sampleC6.rows.map (cleanedCells (PyOpt.num 0) sampleC6.cols.length 0) } :=
  ⟨by decide, (handle_ovrflw_spec sampleC6 (PyOpt.num 0) (by decide)).1⟩

/-- Whether a cell is the missing-data marker. -/
def isNaCell : Cell → Bool
  | Cell.na => true
  | _ => false

/-- Pandas `df.dropna()`: keep exactly the rows (with their index labels)
that contain no missing value; index values themselves are not inspected. -/
def dropna (t : Table) : Table :=
  let keep := (t.index.zip t.rows).filter (fun p => !(p.2.any isNaCell))
  { index := keep.map (fun p => p.1), cols := t.cols, rows := keep.map (fun p => p.2) }

/-- Elapsed hours computed by `index_to_time` for one reading:
`timedelta(hours=h, minutes=m, seconds=s).total_seconds() / 3600`,
i.e. `h + m/60 + s/3600`. -/
def elapsedHours (h m s : ℕ) : ℚ :=
  ((3600 * (h : ℚ) + 60 * (m : ℚ) + (s : ℚ))) / 3600

/-- Reading the `.hour`/`.minute`/`.second` attributes of a cell: defined
exactly on time-of-day cells (`AttributeError` otherwise). -/
def timeToHours : Cell → Option ℚ
  | Cell.time h m s => some (elapsedHours h m s)
  | _ => none

/-- Pandas `df[name] = vals`: replace the column if the label exists
(positionally at its first occurrence), otherwise append a new column. -/
def setCol (t : Table) (name : String) (vals : List Cell) : Table :=
  if name ∈ t.cols then
    { t with rows := List.zipWith (fun row v => row.set (t.cols.indexOf name) v) t.rows vals }
  else
    { t with cols := t.cols ++ [name],
             rows := List.zipWith (fun row v => row ++ [v]) t.rows vals }

/-- Pandas `df.set_index(name, inplace=True)`: the named column becomes the
row index and is removed from the columns; missing label leaves `t` (the
source only calls this with the freshly added `"hours elapsed"` column). -/
def setIndexRemove (t : Table) (name : String) : Table :=
  if name ∈ t.cols then
    let j := t.cols.indexOf name
    { index := t.rows.map (fun row => row.getD j Cell.na),
      cols := t.cols.eraseIdx j,
      rows := t.rows.map (fun row => row.eraseIdx j) }
  else t

/-- `processing.index_to_time`: drop rows with missing values, turn each
time-of-day in the `"Time"` column into elapsed hours, store those hours in
a new `"hours elapsed"` column and make that column the row index.
Missing `"Time"` column raises `KeyError`; a non-time cell in it raises
`AttributeError` (no `.hour` attribute). -/
def index_to_time (t : Table) : Except String Table :=
  if "Time" ∈ (dropna t).cols then
    match (dropna t).rows.mapM
        (fun row => timeToHours (row.getD ((dropna t).cols.indexOf "Time") Cell.na)) with
    | none => Except.error "AttributeError: cell in Time column has no hour attribute"
    | some hrs =>
        Except.ok (setIndexRemove
          (setCol (dropna t) "hours elapsed" (hrs.map Cell.num)) "hours elapsed")
  else Except.error "KeyError: Time"

/-- Sanity check: the row with a missing value is dropped, the index
becomes elapsed hours, and the Time column survives. -/
theorem index_to_time_example :
    index_to_time
      { index := [Cell.num 0, Cell.num 1, Cell.num 2],
        cols := ["Time", "Temp", "A1"],
        rows := [[Cell.time 0 0 0, Cell.num 30, Cell.num 5],
                 [Cell.time 0 30 0, Cell.num 30, Cell.na],
                 [Cell.time 1 0 0, Cell.num 30, Cell.num 7]] }
    = Except.ok
      { index := [Cell.num 0, Cell.num 1],
        cols := ["Time", "Temp", "A1"],
        rows := [[Cell.time 0 0 0, Cell.num 30, Cell.num 5],
                 [Cell.time 1 0 0, Cell.num 30, Cell.num 7]] } := by decide

theorem dropna_rows_subset (t : Table) : ∀ row ∈ (dropna t).rows, row ∈ t.rows := by
  intro row h
  simp only [dropna, List.mem_map, List.mem_filter] at h
  obtain ⟨p, ⟨hz, _⟩, rfl⟩ := h
  exact (List.of_mem_zip hz).2

theorem mapM_option_eq_some_map {α β : Type} (f : α → Option β) (d : β) :
    ∀ (l : List α), (∀ x ∈ l, (f x).isSome = true) →
      l.mapM f = some (l.map (fun x => (f x).getD d))
  | [], _ => rfl
  | x :: xs, h => by
      obtain ⟨b, hb⟩ := Option.isSome_iff_exists.mp (h x (List.mem_cons_self x xs))
      have ih := mapM_option_eq_some_map f d xs (fun y hy => h y (List.mem_cons_of_mem x hy))
      rw [List.mapM_cons, hb, ih]
      simp [hb]

theorem eraseIdx_concat_length {α : Type} (l : List α) (a : α) :
    (l ++ [a]).eraseIdx l.length = l := by
  induction l with
  | nil => rfl
  | cons x xs ih => simp only [List.cons_append, List.length_cons, List.eraseIdx_cons_succ, ih]

theorem getD_concat_length (l : List Cell) (a d : Cell) : (l ++ [a]).getD l.length d = a := by
  induction l with
  | nil => rfl
  | cons x xs ih => simp only [List.cons_append, List.length_cons, List.getD_cons_succ, ih]

theorem zipWith_concat_erase (n : ℕ) :
    ∀ (rows : List (List Cell)) (vals : List Cell), rows.length = vals.length →
      (∀ row ∈ rows, row.length = n) →
      (List.zipWith (fun row v => row ++ [v]) rows vals).map (fun row => row.eraseIdx n)
        = rows
  | [], [], _, _ => rfl
  | r :: rs, v :: vs, hlen, hn => by
      have hr : r.length = n := hn r (List.mem_cons_self r rs)
      have ih := zipWith_concat_erase n rs vs (by simpa using hlen)
        (fun row hrow => hn row (List.mem_cons_of_mem r hrow))
      simp only [List.zipWith_cons_cons, List.map_cons, ih]
      rw [← hr, eraseIdx_concat_length]

theorem zipWith_concat_getD (n : ℕ) :
    ∀ (rows : List (List Cell)) (vals : List Cell), rows.length = vals.length →
      (∀ row ∈ rows, row.length = n) →
      (List.zipWith (fun row v => row ++ [v]) rows vals).map (fun row => row.getD n Cell.na)
        = vals
  | [], [], _, _ => rfl
  | r :: rs, v :: vs, hlen, hn => by
      have hr : r.length = n := hn r (List.mem_cons_self r rs)
      have ih := zipWith_concat_getD n rs vs (by simpa using hlen)
        (fun row hrow => hn row (List.mem_cons_of_mem r hrow))
      simp only [List.zipWith_cons_cons, List.map_cons, ih]
      rw [← hr, getD_concat_length]

/-- Table used to settle C3. -/
def sampleC3 : Table :=
  { index := [Cell.num 0, Cell.num 1],
    cols := ["Time", "Temp", "A1"],
    rows := [[Cell.time 0 0 0, Cell.num 30, Cell.num 5],
             [Cell.time 1 0 0, Cell.num 30, Cell.num 7]] }

/-- C3 counterexample: the claim says the time column is discarded, absent
from the returned table; but `set_index` consumes only the freshly added
`"hours elapsed"` column, so the returned table still has the `"Time"`
column among its columns. -/
theorem index_to_time_keeps_time_column_cex :
    index_to_time sampleC3
      = Except.ok
        { index := [Cell.num 0, Cell.num 1],
          cols := ["Time", "Temp", "A1"],
          rows := [[Cell.time 0 0 0, Cell.num 30, Cell.num 5],
                   [Cell.time 1 0 0, Cell.num 30, Cell.num 7]] }
      ∧ "Time" ∈ (["Time", "Temp", "A1"] : List String) := by
  exact ⟨by decide, by decide⟩

/-- C3 (amended): for every rectangular table with a `"Time"` column of
time-of-day values (and no pre-existing `"hours elapsed"` column),
`index_to_time` drops the rows with missing values, installs as row index
the elapsed hours since hour=0 (`hour + minute/60 + second/3600` per row),
and keeps all original columns: the helper `"hours elapsed"` column is
consumed by the re-indexing while the original `"Time"` column remains in
the returned table (it is not discarded). -/
theorem index_to_time_spec (t : Table)
    (hT : "Time" ∈ t.cols)
    (hHE : "hours elapsed" ∉ t.cols)
    (hrect : ∀ row ∈ t.rows, row.length = t.cols.length)
    (htimes : ∀ row ∈ (dropna t).rows,
      (timeToHours (row.getD (t.cols.indexOf "Time") Cell.na)).isSome = true) :
    index_to_time t = Except.ok
      { index := (dropna t).rows.map (fun row =>
          Cell.num ((timeToHours (row.getD (t.cols.indexOf "Time") Cell.na)).getD 0)),
        cols := t.cols,
        rows := (dropna t).rows } := by
  have hcols : (dropna t).cols = t.cols := rfl
  have hsub := dropna_rows_subset t
  have hrect1 : ∀ row ∈ (dropna t).rows, row.length = t.cols.length :=
    fun row hrow => hrect row (hsub row hrow)
  unfold index_to_time
  rw [hcols]
  rw [if_pos hT]
  rw [mapM_option_eq_some_map _ (0 : ℚ) _ htimes]
  have hmem2 : "hours elapsed" ∈ t.cols ++ ["hours elapsed"] := by simp
  have hidx : (t.cols ++ ["hours elapsed"]).indexOf "hours elapsed" = t.cols.length := by
    rw [List.indexOf_append_of_not_mem hHE]
    simp [List.indexOf_cons_self]
  simp only [setCol, setIndexRemove, hcols, if_neg hHE, if_pos hmem2, hidx, List.map_map,
    Except.ok.injEq, Table.mk.injEq]
  refine ⟨?_, eraseIdx_concat_length _ _, ?_⟩
  · rw [zipWith_concat_getD t.cols.length _ _ (by simp) hrect1]
    simp [Function.comp]
  · rw [zipWith_concat_erase t.cols.length _ _ (by simp) hrect1]

/-- Witness for `index_to_time_spec` at a concrete table. -/
theorem index_to_time_spec_witness :
    ("Time" ∈ sampleC3.cols ∧ "hours elapsed" ∉ sampleC3.cols ∧
      (∀ row ∈ sampleC3.rows, row.length = sampleC3.cols.length) ∧
      (∀ row ∈ (dropna sampleC3).rows,
        (timeToHours (row.getD (sampleC3.cols.indexOf "Time") Cell.na)).isSome = true)) ∧
    index_to_time sampleC3 = Except.ok
      { index := (dropna sampleC3).rows.map (fun row =>
          Cell.num ((timeToHours (row.getD (sampleC3.cols.indexOf "Time") Cell.na)).getD 0)),
        cols := sampleC3.cols,
        rows := (dropna sampleC3).rows } := by
  refine ⟨⟨by decide, by decide, by decide, by decide⟩, ?_⟩
  exact index_to_time_spec sampleC3 (by decide) (by decide) (by decide) (by decide)

/-- Elementwise division of two cells as the `object`-dtype pandas division
in `normalize_by_OD` performs it: `pd.NA` propagates from either operand,
numbers divide in Python space (where a zero divisor raises
`ZeroDivisionError`), any other operand combination raises `TypeError`. -/
def cellDiv : Cell → Cell → Except String Cell
  | Cell.na, _ => Except.ok Cell.na
  | _, Cell.na => Except.ok Cell.na
  | Cell.num a, Cell.num b =>
      if b = 0 then Except.error "ZeroDivisionError: division by zero"
      else Except.ok (Cell.num (a / b))
  | _, _ => Except.error "TypeError: unsupported operand types"

/-- Elementwise division of two equally long rows. -/
def divRow : List Cell → List Cell → Except String (List Cell)
  | [], [] => Except.ok []
  | a :: as, b :: bs => do
      let c ← cellDiv a b
      let rest ← divRow as bs
      Except.ok (c :: rest)
  | _, _ => Except.error "shape mismatch"

/-- `processing.normalize_by_OD`: `df_fl.iloc[:, 2:] / df_od.iloc[:, 2:]`.
Pandas aligns the operands on row index and column labels; the pipeline
guarantees identical labels and indices, which the model requires
explicitly (label mismatch is treated as an error rather than the pandas
union-with-NaN broadcast, a case no claim exercises). -/
def normalize_by_OD (df_od df_fl : Table) : Except String Table := do
  if df_od.index = df_fl.index ∧ df_od.cols.drop 2 = df_fl.cols.drop 2 then do
    let rows ← (df_fl.rows.zip df_od.rows).mapM
      (fun p => divRow (p.1.drop 2) (p.2.drop 2))
    Except.ok { index := df_fl.index, cols := df_fl.cols.drop 2, rows := rows }
  else Except.error "alignment mismatch between OD and fluorescence tables"

/-- `processing.rename_sample_columns`: `df.rename(columns=rename_map)` —
every column label that is a key of the map is replaced by its image,
all other labels pass through unchanged (non-strict rename). -/
def rename_sample_columns (t : Table) (rename_map : List (String × String)) : Table :=
  { t with cols := t.cols.map (fun c =>
      match rename_map.lookup c with
      | some n => n
      | none => c) }

/-- The numeric content of a cell, if any. -/
def numOf : Cell → Option ℚ
  | Cell.num q => some q
  | _ => none

/-- Pandas row-wise `mean(axis=1)` with default `skipna=True` over the
selected cells: the arithmetic mean of the numeric values, the missing
marker when there is none. -/
def pyMean (cells : List Cell) : Cell :=
  let nums := cells.filterMap numOf
  if nums.length = 0 then Cell.na else Cell.num (nums.sum / (nums.length : ℚ))

/-- Python `col.startswith(cond)`: case-sensitive exact prefix match
(stated over the character lists, which the kernel can evaluate). -/
def strStartsWith (cond col : String) : Bool :=
  cond.data.isPrefixOf col.data

/-- The cells of a row belonging to columns whose name starts with `cond`
(`col.startswith(cond)`, case-sensitive exact prefix match). -/
def matchedCells (cols : List String) (row : List Cell) (cond : String) : List Cell :=
  ((cols.zip row).filter (fun p => strStartsWith cond p.1)).map (fun p => p.2)

/-- The conditions that survive `average_replicates`: `set(conditions)`
(modelled as deduplication; the source iterates a Python set, whose order
is unspecified) restricted to conditions matching at least one column
(`if replicate_cols:`). -/
def avgConditions (t : Table) (conditions : List String) : List String :=
  conditions.dedup.filter (fun c => t.cols.any (fun col => strStartsWith c col))

/-- `processing.average_replicates`: one output column per condition that
prefix-matches at least one column of `df`, holding the row-wise mean of
the matched columns; built over `pd.DataFrame(index=df.index)`, so the
row index of the input is reused as is. -/
def average_replicates (t : Table) (conditions : List String) : Table :=
  { index := t.index,
    cols := avgConditions t conditions,
    rows := t.rows.map (fun row =>
      (avgConditions t conditions).map (fun c => pyMean (matchedCells t.cols row c))) }

/-- Sanity check: duplicate conditions are averaged once, a condition with
no matching column is dropped. -/
theorem average_replicates_example :
    average_replicates
      { index := [Cell.num 0], cols := ["Time", "Temp", "cond", "cond", "other"],
        rows := [[Cell.str "x", Cell.num 30, Cell.num 2, Cell.num 3, Cell.num 9]] }
      ["cond", "missing", "cond"]
    = { index := [Cell.num 0], cols := ["cond"],
        rows := [[Cell.num ((5 : ℚ) / 2)]] } := by decide

/-- Sanity check: an all-missing replicate set averages to missing. -/
theorem average_replicates_na_example :
    average_replicates
      { index := [Cell.num 0], cols := ["Time", "cond"],
        rows := [[Cell.str "x", Cell.na]] }
      ["cond"]
    = { index := [Cell.num 0], cols := ["cond"], rows := [[Cell.na]] } := by decide

/-- C9: for every table and condition set, `average_replicates` returns
(without error) a table with exactly one column per distinct condition that
prefix-matches (case-sensitively) at least one input column — a condition
matching zero columns yields no output column — and each row of the output
holds, for each such condition, the arithmetic mean of the numeric values
among the matched columns of the corresponding input row (`pyMean`:
missing values are ignored; all-missing yields the missing marker). -/
theorem average_replicates_spec (t : Table) (conds : List String) :
    (average_replicates t conds).cols.Nodup ∧
    (∀ c, c ∈ (average_replicates t conds).cols ↔
      (c ∈ conds ∧ ∃ col ∈ t.cols, strStartsWith c col = true)) ∧
    (∀ i, (average_replicates t conds).rows.get? i = (t.rows.get? i).map
      (fun row => (average_replicates t conds).cols.map
        (fun c => pyMean (matchedCells t.cols row c)))) := by
  refine ⟨?_, ?_, ?_⟩
  · exact (conds.nodup_dedup).filter _
  · intro c
    simp [average_replicates, avgConditions, List.mem_filter, List.any_eq_true]
  · intro i
    simp [average_replicates, List.get?_map]

/-- C10: `average_replicates` preserves the row index of the input exactly (and
its row count) — no rows are added, dropped or reordered — even when no
condition matches any column. -/
theorem average_replicates_preserves_index (t : Table) (conds : List String) :
    (average_replicates t conds).index = t.index ∧
    (average_replicates t conds).rows.length = t.rows.length := by
  exact ⟨rfl, by simp [average_replicates]⟩

/-- The Avogadro constant as the source writes it: `6.022*(10**23)`. -/
def avogadro : ℚ := (6022 / 1000) * 10 ^ 23

/-- The absolute molecule count `calibration.rfu_to_mefl` computes for one
known concentration: `well_volume = well_volume_uL * 10**-6` and
`fluor_molecules = fluor_conc_uM * well_volume * avogadro`.  Note the
concentration is used as is — the source applies no micromolar-to-molar
factor to it. -/
def fluor_molecules_of (conc_uM well_volume_uL : ℚ) : ℚ :=
  conc_uM * (well_volume_uL * (1 / 1000000)) * avogadro

/-- The absolute molecule count as the specification words it:
`conc_uM × 1e-6 × volume_uL × 1e-6 × 6.022e23`.  Stated only to be compared
with `fluor_molecules_of`, the count the source computes. -/
def spec_molecule_count (conc_uM well_volume_uL : ℚ) : ℚ :=
  conc_uM * (1 / 1000000) * (well_volume_uL * (1 / 1000000)) * avogadro

/-- C1: at the scenario given by the claim: `conc_uM = 1`, `volume_uL = 200`, the
count computed by `rfu_to_mefl` is `1.2044e20`, not the claimed
`1 × 200 × 6.022e23 × 1e-12 = 1.2044e14`: the source omits the
micromolar-to-molar `1e-6` factor on the concentration, so its count
exceeds the documented value by a factor of `1e6` (far beyond the claimed
relative tolerance `1e-9`). -/
theorem fluor_molecules_unit_bug :
    fluor_molecules_of 1 200 = 120440000000000000000 ∧
    spec_molecule_count 1 200 = 120440000000000 ∧
    fluor_molecules_of 1 200 ≠ spec_molecule_count 1 200 := by
  refine ⟨by decide, by decide, by decide⟩

/-- Whether a column name starts with one of the eight 96-well-plate row
letters: `col.startswith(L)` for L among the letters A, B, C, D, E, F, G, H. -/
def startsWithAH (s : String) : Bool :=
  ["A", "B", "C", "D", "E", "F", "G", "H"].any (fun p => strStartsWith p s)

/-- Whether a cell can be an operand of `series * slope + intercept`
without raising (numbers; `pd.NA`, which propagates). -/
def numOrNa : Cell → Bool
  | Cell.num _ => true
  | Cell.na => true
  | _ => false

/-- One cell of `df.loc[:, col] * slope + intercept`: numbers are mapped
affinely, `pd.NA` propagates, anything else raises `TypeError`. -/
def cellAffine (slope intercept : ℚ) : Cell → Except String Cell
  | Cell.num q => Except.ok (Cell.num (q * slope + intercept))
  | Cell.na => Except.ok Cell.na
  | _ => Except.error "TypeError: unsupported operand types"

/-- Total description of `cellAffine` on cells where it succeeds. -/
def affineAH (slope intercept : ℚ) : Cell → Cell
  | Cell.num q => Cell.num (q * slope + intercept)
  | c => c

/-- One row of the `rfu_to_mefl` column loop, cells visited with their
column position `j` (starting from `j0`): cells of columns whose name
starts with a row letter A–H are transformed affinely, others kept.
Positions beyond the column labels are untouched (`cols.getD` yields `""`,
which starts with no letter). -/
def applyCells (cols : List String) (slope intercept : ℚ) :
    ℕ → List Cell → Except String (List Cell)
  | _, [] => Except.ok []
  | j, c :: cs => do
      let c2 ← if startsWithAH (cols.getD j "") then cellAffine slope intercept c
               else Except.ok c
      let rest ← applyCells cols slope intercept (j + 1) cs
      Except.ok (c2 :: rest)

/-- Total counterpart of `applyCells` (what it returns when it succeeds). -/
def affineCells (cols : List String) (slope intercept : ℚ) : ℕ → List Cell → List Cell
  | _, [] => []
  | j, c :: cs =>
      (if startsWithAH (cols.getD j "") then affineAH slope intercept c else c)
        :: affineCells cols slope intercept (j + 1) cs

/-- The application part of `calibration.rfu_to_mefl` (`df_MEFL = df.copy()`
followed by the column loop): every column whose name starts with a row
letter A–H is replaced by `value * slope + intercept`, every other column
passes through; the result is a fresh table built from a copy, so the
input table value is untouched. -/
def rfu_to_mefl_apply (t : Table) (slope intercept : ℚ) : Except String Table := do
  let rows ← t.rows.mapM (applyCells t.cols slope intercept 0)
  Except.ok { t with rows := rows }

theorem applyCells_ok (cols : List String) (slope intercept : ℚ) :
    ∀ (j0 : ℕ) (l : List Cell),
      (∀ k c, l.get? k = some c → startsWithAH (cols.getD (j0 + k) "") = true →
        numOrNa c = true) →
      applyCells cols slope intercept j0 l
        = Except.ok (affineCells cols slope intercept j0 l)
  | _, [], _ => rfl
  | j0, c :: cs, h => by
      have hc := h 0 c rfl
      have ih := applyCells_ok cols slope intercept (j0 + 1) cs
        (fun k d hk hs => by
          have := h (k + 1) d (by simpa using hk)
          exact this (by
            have harith : j0 + (k + 1) = j0 + 1 + k := by omega
            rw [harith]; exact hs))
      simp only [applyCells, affineCells, ih]
      by_cases hs : startsWithAH (cols.getD j0 "") = true
      · have hnum : numOrNa c = true := hc (by simpa using hs)
        rw [if_pos hs, if_pos hs]
        cases c with
        | num q => rfl
        | na => rfl
        | str s => simp [numOrNa] at hnum
        | time hh mm ss => simp [numOrNa] at hnum
      · rw [if_neg hs, if_neg hs]
        rfl

theorem affineCells_get? (cols : List String) (slope intercept : ℚ) :
    ∀ (l : List Cell) (j0 k : ℕ),
      (affineCells cols slope intercept j0 l).get? k = (l.get? k).map (fun c =>
        if startsWithAH (cols.getD (j0 + k) "") then affineAH slope intercept c else c)
  | [], _, _ => by simp [affineCells]
  | c :: cs, j0, 0 => by simp [affineCells]
  | c :: cs, j0, k + 1 => by
      have ih := affineCells_get? cols slope intercept cs (j0 + 1) k
      simp only [affineCells, List.get?]
      rw [ih]
      have harith : j0 + 1 + k = j0 + (k + 1) := by omega
      rw [harith]

/-- C8: for every table whose A–H-lettered columns hold only numbers or
missing markers, and every fitted slope and intercept, the application part
of `rfu_to_mefl` succeeds and returns a table (a fresh value — the source
works on `df.copy()`, leaving the input unmutated) with the same index and
columns, in which every cell of a column whose name starts with one of the
letters A–H is `value * slope + intercept` of the input cell (missing stays
missing) and every other column is unchanged. -/
theorem zip_numOk_to_idx (cols : List String) (row : List Cell)
    (h : ∀ p ∈ cols.zip row, startsWithAH p.1 = true → numOrNa p.2 = true) :
    ∀ k c, row.get? k = some c → startsWithAH (cols.getD k "") = true → numOrNa c = true := by
  intro k c hk hs
  cases hcol : cols.get? k with
  | none =>
      rw [List.getD_eq_get?, hcol] at hs
      exact absurd hs (by decide)
  | some col =>
      rw [List.getD_eq_get?, hcol] at hs
      have hz : (cols.zip row).get? k = some (col, c) :=
        (List.get?_zip_eq_some cols row (col, c) k).mpr ⟨hcol, hk⟩
      exact h (col, c) (List.get?_mem hz) (by simpa using hs)

theorem rfu_to_mefl_apply_spec (t : Table) (slope intercept : ℚ)
    (hnum : ∀ row ∈ t.rows, ∀ p ∈ t.cols.zip row,
      startsWithAH p.1 = true → numOrNa p.2 = true) :
    rfu_to_mefl_apply t slope intercept = Except.ok
      { index := t.index,
        cols := t.cols,
        rows := t.rows.map (affineCells t.cols slope intercept 0) } ∧
    (∀ i j, ((t.rows.map (affineCells t.cols slope intercept 0)).get? i).bind
        (fun row => row.get? j) = (cellAt t i j).map (fun c =>
          if startsWithAH (t.cols.getD j "") then affineAH slope intercept c else c)) := by
  constructor
  · unfold rfu_to_mefl_apply
    rw [mapM_except_eq_ok_map _ _ t.rows (fun row hrow =>
      applyCells_ok t.cols slope intercept 0 row (fun k c hk hs =>
        zip_numOk_to_idx t.cols row (hnum row hrow) k c hk (by simpa using hs)))]
    rfl
  · intro i j
    simp only [cellAt, List.get?_map]
    cases t.rows.get? i with
    | none => rfl
    | some row =>
        have h := affineCells_get? t.cols slope intercept row 0 j
        simp only [Option.map_some', Option.some_bind]
        rw [h]
        simp

/-- Table used as the witness input of `rfu_to_mefl_apply_spec`. -/
def sampleC8 : Table :=
  { index := [Cell.num 0], cols := ["Time", "Temp", "A1"],
    rows := [[Cell.str "x", Cell.num 4, Cell.num 2]] }

/-- Witness for `rfu_to_mefl_apply_spec` at a concrete table. -/
theorem rfu_to_mefl_apply_spec_witness :
    (∀ row ∈ sampleC8.rows, ∀ p ∈ sampleC8.cols.zip row,
        startsWithAH p.1 = true → numOrNa p.2 = true) ∧
    rfu_to_mefl_apply sampleC8 3 5
      = Except.ok
        { index := sampleC8.index, cols := sampleC8.cols,
          rows := sampleC8.rows.map (affineCells sampleC8.cols 3 5 0) } := by
  refine ⟨by decide, ?_⟩
  exact (rfu_to_mefl_apply_spec sampleC8 3 5 (by decide)).1

/-- Pandas `df[name].mean()` as used on calibration wells: the column must
exist (`KeyError`) and be numeric-or-missing (`TypeError`); missing values
are skipped; a column with no numeric value would make the mean `NaN` and
poison the regression, modelled as an error. -/
def colMean (t : Table) (name : String) : Except String ℚ :=
  if name ∈ t.cols then
    if (t.rows.map (fun row => row.getD (t.cols.indexOf name) Cell.na)).all numOrNa then
      match (t.rows.map (fun row => row.getD (t.cols.indexOf name) Cell.na)).filterMap numOf with
      | [] => Except.error "column mean is NaN"
      | q :: qs => Except.ok ((q :: qs).sum / ((q :: qs).length : ℚ))
    else Except.error "TypeError: non-numeric cell in mean"
  else Except.error "KeyError: column not found"

/-- The scalars produced by `scipy.stats.linregress`. -/
structure LinFit where
  slope : ℚ
  intercept : ℚ
  r2 : ℚ
deriving DecidableEq, Repr

/-- `scipy.stats.linregress(x=xs, y=ys)` over exact rationals: ordinary
least squares of `ys` against `xs`; mismatched lengths or identical `xs`
(zero variance, which includes fewer than two points) raise `ValueError`;
`r_squared = rvalue ** 2` is `ssxy^2 / (ssxx * ssyy)` (scipy sets
`rvalue = 0` when `ssyy = 0`). -/
def linregress (xs ys : List ℚ) : Except String LinFit :=
  if xs.length = ys.length then
    if xs.length = 0 then Except.error "ValueError: Inputs must not be empty."
    else
      let n : ℚ := (xs.length : ℚ)
      let xbar := xs.sum / n
      let ybar := ys.sum / n
      let ssxx := (xs.map (fun x => (x - xbar) ^ 2)).sum
      let ssyy := (ys.map (fun y => (y - ybar) ^ 2)).sum
      let ssxy := (List.zipWith (fun x y => (x - xbar) * (y - ybar)) xs ys).sum
      if ssxx = 0 then
        Except.error "ValueError: Cannot calculate a linear regression if all x values are identical"
      else
        Except.ok { slope := ssxy / ssxx,
                    intercept := ybar - (ssxy / ssxx) * xbar,
                    r2 := if ssyy = 0 then 0 else ssxy ^ 2 / (ssxx * ssyy) }
  else Except.error "ValueError: Inputs have mismatched lengths"

/-- Everything `calibration.rfu_to_mefl` returns: the converted table, the
observed signals, the absolute counts, and the fitted scalars. -/
structure CalibOut where
  dfM : Table
  rfus : List ℚ
  mefl : List ℚ
  fit : LinFit
deriving DecidableEq, Repr

/-- `calibration.rfu_to_mefl`: convert the known concentrations to counts
(`fluor_molecules_of`), take the column-wise mean of each calibration well,
optionally subtract the mean of the background well, fit signal against count by
ordinary least squares, and apply the fit to every A–H-lettered column. -/
def rfu_to_mefl (df : Table) (fluor_conc_uM : List ℚ) (well_volume_uL : ℚ)
    (fluorescein_wells : List String) (background_well : Option String) :
    Except String CalibOut := do
  let fluor_molecules := fluor_conc_uM.map (fun c => fluor_molecules_of c well_volume_uL)
  let rfus0 ← fluorescein_wells.mapM (colMean df)
  let rfus ← (match background_well with
    | none => Except.ok rfus0
    | some bw => do
        let b ← colMean df bw
        Except.ok (rfus0.map (fun r => r - b)))
  let fit ← linregress rfus fluor_molecules
  let dfM ← rfu_to_mefl_apply df fit.slope fit.intercept
  Except.ok { dfM := dfM, rfus := rfus, mefl := fluor_molecules, fit := fit }

/-- The `calibration` section of the YAML configuration. -/
structure CalibCfg where
  fluorescein_calibration_wells : List String
  fluorescein_micromolar_concentration : List ℚ
  microliters_in_wells : ℚ
  background_well : Option String
deriving DecidableEq, Repr

/-- One entry of `plotting.plots` (only the fields the orchestrator checks;
title, units, colors and filename feed the external plot writer). -/
structure PlotCfg where
  source : String
  columns : List String
deriving DecidableEq, Repr

/-- The configuration document after YAML parsing, with the required
sections present (`run_pipeline` raises `KeyError` before touching any data
when one is missing) and I/O-only fields (file path, sheet names, output
folder) owned by the external collaborators. -/
structure Config where
  replacement : PyOpt
  calibration : Option CalibCfg
  rename_map : List (String × String)
  conditions : Option (List String)
  plots : List PlotCfg
deriving DecidableEq, Repr

/-- The dictionary a full `run_pipeline` call returns. -/
structure RunResult where
  normalized_MEFL_replicates : Option Table
  normalized_MEFL_average : Option Table
  slope : Option ℚ
  intercept : Option ℚ
  r_squared : Option ℚ
deriving DecidableEq, Repr

/-- The `UnboundLocalError` message raised when `run_pipeline` reads the
local `df_norm_MEFL`, which is assigned only in the calibration branch. -/
def unboundMsg : String :=
  "UnboundLocalError: local variable df_norm_MEFL referenced before assignment"

/-- Python truthiness of `config.get("conditions", False)`:
absent (`False`) and the empty list are falsy. -/
def condTruthy : Option (List String) → Bool
  | none => false
  | some cs => !cs.isEmpty

/-- `df_sfGFP.index = df_od600.index`: pandas raises a length-mismatch
`ValueError` unless the new index has exactly one label per row. -/
def setIndexFrom (t src : Table) : Except String Table :=
  if t.rows.length = src.index.length then Except.ok { t with index := src.index }
  else Except.error "ValueError: Length mismatch between index and rows"

/-- The plot loop of `run_pipeline`: each requested source must resolve to
an available table in `df_map` and each requested column must exist in it;
the actual rendering is the external collaborator. -/
def plotsCheck (dfMap : List (String × Option Table)) : List PlotCfg → Except String Unit
  | [] => Except.ok ()
  | p :: ps =>
      match (dfMap.lookup p.source).join with
      | none => Except.error
          ("ValueError: Plot source " ++ p.source ++ " requested but data not available")
      | some t =>
          if p.columns.all (fun c => t.cols.contains c) then plotsCheck dfMap ps
          else Except.error "ValueError: Columns not found in dataframe for plot"

/-- `run_pipeline.run_pipeline` on the two loaded tables (spreadsheet
ingestion, CSV export and image rendering are the external collaborators;
`load_xlsx` always resets the row index to `0..n-1`).  The stages in source
order: raw-index check, overflow cleaning of the fluorescence table,
time-indexing of the OD table, reuse of the OD index for the fluorescence
table, optional calibration, renaming, normalization, optional replicate
averaging, plot-source resolution, and the final result dictionary.
The Python local `df_norm_MEFL` is assigned only inside the calibration
branch; `none` in `df_norm_MEFL_loc` models the unbound state, and each
read of the local checks it. -/
def run_pipeline (cfg : Config) (df_od0 df_fl0 : Table) : Except String RunResult :=
  if df_od0.index ≠ df_fl0.index then
    Except.error "ValueError: OD600 and fluorescence time axes do not match."
  else (do
    let df_fl1 ← handle_ovrflw df_fl0 cfg.replacement
    let df_od1 ← index_to_time df_od0
    let df_fl2 ← setIndexFrom df_fl1 df_od1
    let calib ← (match cfg.calibration with
      | some c => do
          let out ← rfu_to_mefl df_fl2 c.fluorescein_micromolar_concentration
            c.microliters_in_wells c.fluorescein_calibration_wells c.background_well
          Except.ok (some out)
      | none => Except.ok (none : Option CalibOut))
    let df_od2 := rename_sample_columns df_od1 cfg.rename_map
    let df_fl3 := rename_sample_columns df_fl2 cfg.rename_map
    let df_MEFL : Option Table := calib.map (fun c => rename_sample_columns c.dfM cfg.rename_map)
    let df_norm_fl ← normalize_by_OD df_od2 df_fl3
    let df_norm_MEFL_loc ← (match df_MEFL with
      | some m => do
          let n ← normalize_by_OD df_od2 m
          Except.ok (some n)
      | none => Except.ok (none : Option Table))
    let avgs ← (if condTruthy cfg.conditions then do
        let cs := cfg.conditions.getD []
        let odAvg := average_replicates df_od2 cs
        let flAvg := average_replicates df_fl3 cs
        let nFlAvg := average_replicates df_norm_fl cs
        let meflAvg := df_MEFL.map (fun m => average_replicates m cs)
        match df_norm_MEFL_loc with
        | none => Except.error unboundMsg
        | some n => Except.ok (some odAvg, some flAvg, some nFlAvg, meflAvg,
            some (average_replicates n cs))
      else Except.ok ((none : Option Table), (none : Option Table), (none : Option Table),
        (none : Option Table), (none : Option Table)))
    match df_norm_MEFL_loc with
    | none => Except.error unboundMsg
    | some df_norm_MEFL => do
        let dfMap : List (String × Option Table) :=
          [("normalized MEFL average", avgs.2.2.2.2),
           ("normalized MEFL replicates", some df_norm_MEFL),
           ("MEFL average", avgs.2.2.2.1),
           ("MEFL replicates", df_MEFL),
           ("normalized RFU average", avgs.2.2.1),
           ("normalized RFU replicates", some df_norm_fl),
           ("RFU average", avgs.2.1),
           ("RFU replicates", some df_fl3),
           ("OD average", avgs.1),
           ("OD replicates", some df_od2)]
        let _ ← plotsCheck dfMap cfg.plots
        Except.ok { normalized_MEFL_replicates := some df_norm_MEFL,
                    normalized_MEFL_average := avgs.2.2.2.2,
                    slope := calib.map (fun c => c.fit.slope),
                    intercept := calib.map (fun c => c.fit.intercept),
                    r_squared := calib.map (fun c => c.fit.r2) })

/-- Configuration without a `calibration` section, used to settle C2. -/
def cfgC2 : Config :=
  { replacement := PyOpt.fls, calibration := none, rename_map := [],
    conditions := none, plots := [] }

/-- OD table used to settle C2 (every other stage succeeds on it). -/
def odC2 : Table :=
  { index := [Cell.num 0, Cell.num 1], cols := ["Time", "Temp", "A1"],
    rows := [[Cell.time 0 0 0, Cell.num 1, Cell.num 5],
             [Cell.time 1 0 0, Cell.num 1, Cell.num 6]] }

/-- Fluorescence table used to settle C2. -/
def flC2 : Table :=
  { index := [Cell.num 0, Cell.num 1], cols := ["Time", "Temp", "A1"],
    rows := [[Cell.time 0 0 0, Cell.num 1, Cell.num 7],
             [Cell.time 1 0 0, Cell.num 1, Cell.num 8]] }

/-- C2: with the calibration section absent and every other stage
succeeding, `run_pipeline` does not return the claimed all-null result: the
local `df_norm_MEFL` is assigned only inside the calibration branch, yet it
is read unconditionally (in the replicate-averaging block and in the plot
`df_map` dictionary), so the run raises `UnboundLocalError`.  The source
initializes `df_MEFL`, `Slope`, `Intercept`, `R_squared` and all five
`*_avg` locals to `None` for exactly this case but misses `df_norm_MEFL`. -/
theorem run_pipeline_no_calibration_raises :
    run_pipeline cfgC2 odC2 flC2 = Except.error unboundMsg := by decide

/-- Calibration section used to settle C4. -/
def calC4 : CalibCfg :=
  { fluorescein_calibration_wells := ["A1", "A2"],
    fluorescein_micromolar_concentration := [1, 2],
    microliters_in_wells := 200, background_well := none }

/-- Configuration with calibration, used to settle C4. -/
def cfgC4 : Config :=
  { replacement := PyOpt.fls, calibration := some calC4,
    rename_map := [], conditions := none, plots := [] }

/-- OD table used to settle C4: readings at 0h and 1h. -/
def odC4 : Table :=
  { index := [Cell.num 0, Cell.num 1], cols := ["Time", "Temp", "A1", "A2"],
    rows := [[Cell.time 0 0 0, Cell.num 1, Cell.num 2, Cell.num 4],
             [Cell.time 1 0 0, Cell.num 1, Cell.num 4, Cell.num 8]] }

/-- Fluorescence table used to settle C4: its own time column reads 2h and
5h — a different elapsed-hours index than that of the OD table. -/
def flC4 : Table :=
  { index := [Cell.num 0, Cell.num 1], cols := ["Time", "Temp", "A1", "A2"],
    rows := [[Cell.time 2 0 0, Cell.num 1, Cell.num 3, Cell.num 5],
             [Cell.time 5 0 0, Cell.num 1, Cell.num 5, Cell.num 9]] }

/-- C4 counterexample: the OD and fluorescence tables disagree on their
time-of-day columns, so their time indices after indexing would be `[0, 1]`
versus `[2, 5]` — yet the full pipeline run completes successfully: the
only index check compares the raw as-loaded indices (equal here), and the
index of the fluorescence table is then silently overwritten with the
elapsed-hours index of the OD table instead of being computed and
compared. -/
theorem run_pipeline_time_mismatch_cex :
    (index_to_time odC4).map Table.index ≠ (index_to_time flC4).map Table.index ∧
    (run_pipeline cfgC4 odC4 flC4).isOk = true := by
  exact ⟨by decide, by decide⟩

/-- C4 (amended): the only alignment check `run_pipeline` performs is on
the raw as-loaded row indices, before any cleaning, calibration or
normalization: when those differ it raises at once; the time columns
themselves are never compared after indexing — the index of the
fluorescence table is overwritten with the elapsed-hours index of the OD
table (`df_sfGFP.index = df_od600.index`), so differing fluorescence times
pass silently (see the counterexample). -/
theorem run_pipeline_raw_index_mismatch (cfg : Config) (od fl : Table)
    (h : od.index ≠ fl.index) :
    run_pipeline cfg od fl
      = Except.error "ValueError: OD600 and fluorescence time axes do not match." := by
  unfold run_pipeline
  rw [if_pos h]

/-- OD table for the witness of `run_pipeline_raw_index_mismatch`. -/
def odC4w : Table :=
  { index := [Cell.num 0], cols := ["Time", "Temp", "A1"],
    rows := [[Cell.time 0 0 0, Cell.num 1, Cell.num 2]] }

/-- Fluorescence table for the witness of `run_pipeline_raw_index_mismatch`
(two rows, so its raw index differs from that of the OD table). -/
def flC4w : Table :=
  { index := [Cell.num 0, Cell.num 1], cols := ["Time", "Temp", "A1"],
    rows := [[Cell.time 0 0 0, Cell.num 1, Cell.num 3],
             [Cell.time 1 0 0, Cell.num 1, Cell.num 4]] }

/-- Configuration for the witness of `run_pipeline_raw_index_mismatch`. -/
def cfgC4w : Config :=
  { replacement := PyOpt.fls, calibration := none, rename_map := [],
    conditions := none, plots := [] }

/-- Witness for `run_pipeline_raw_index_mismatch` at a concrete input. -/
theorem run_pipeline_raw_index_mismatch_witness :
    odC4w.index ≠ flC4w.index ∧
    run_pipeline cfgC4w odC4w flC4w
      = Except.error "ValueError: OD600 and fluorescence time axes do not match." :=
  ⟨by decide, run_pipeline_raw_index_mismatch cfgC4w odC4w flC4w (by decide)⟩

/-- OD table used to settle C5: the first reading of well `A1` is `0`. -/
def odC5 : Table :=
  { index := [Cell.num 0, Cell.num 1], cols := ["Time", "Temp", "A1"],
    rows := [[Cell.str "t", Cell.num 1, Cell.num 0],
             [Cell.str "t", Cell.num 1, Cell.num 2]] }

/-- Fluorescence table used to settle C5 (same shape as `odC5`). -/
def flC5 : Table :=
  { index := [Cell.num 0, Cell.num 1], cols := ["Time", "Temp", "A1"],
    rows := [[Cell.str "t", Cell.num 1, Cell.num 7],
             [Cell.str "t", Cell.num 1, Cell.num 8]] }

/-- OD table for the missing-operand part of C5: one reading is `pd.NA`. -/
def odC5n : Table :=
  { index := [Cell.num 0, Cell.num 1], cols := ["Time", "Temp", "A1"],
    rows := [[Cell.str "t", Cell.num 1, Cell.num 2],
             [Cell.str "t", Cell.num 1, Cell.na]] }

/-- Fluorescence table for the missing-operand part of C5. -/
def flC5n : Table :=
  { index := [Cell.num 0, Cell.num 1], cols := ["Time", "Temp", "A1"],
    rows := [[Cell.str "t", Cell.num 1, Cell.na],
             [Cell.str "t", Cell.num 1, Cell.num 6]] }

/-- C5: normalization does not satisfy the claim on same-shape tables: a
zero divisor makes `normalize_by_OD` raise `ZeroDivisionError` (the
elementwise division of these object-dtype tables divides Python numbers)
instead of propagating an undefined-value marker, although a missing
operand on either side does propagate as `pd.NA` without raising.  The
claim matches the documented design (value-level anomalies are data, not
errors), so the raise is a bug of the code. -/
theorem normalize_by_OD_zero_divisor_raises :
    normalize_by_OD odC5 flC5 = Except.error "ZeroDivisionError: division by zero" ∧
    normalize_by_OD odC5n flC5n
      = Except.ok
        { index := [Cell.num 0, Cell.num 1], cols := ["A1"],
          rows := [[Cell.na], [Cell.na]] } := by
  exact ⟨by decide, by decide⟩

/-- Table used to settle C7: one sentinel cell in a value column. -/
def sampleC7 : Table :=
  { index := [Cell.num 0], cols := ["Time", "Temp", "A1"],
    rows := [[Cell.str "x", Cell.num 1, Cell.str "OVRFLW"]] }

/-- C7 counterexample: with the default (falsy) substitute the first pass
replaces the sentinel with `pd.NA`; on the second pass the source again
evaluates `if df.iloc[i,j] == "OVRFLW"`, and the truth value of
`pd.NA == "OVRFLW"` raises `TypeError: boolean value of NA is ambiguous` —
so `clean(clean(T))` raises instead of equaling `clean(T)`: the Overflow
Normalizer is not idempotent. -/
theorem handle_ovrflw_not_idempotent_cex :
    handle_ovrflw sampleC7 PyOpt.fls
      = Except.ok
        { index := [Cell.num 0], cols := ["Time", "Temp", "A1"],
          rows := [[Cell.str "x", Cell.num 1, Cell.na]] } ∧
    (handle_ovrflw sampleC7 PyOpt.fls).bind (fun u => handle_ovrflw u PyOpt.fls)
      = Except.error "TypeError: boolean value of NA is ambiguous" ∧
    (handle_ovrflw sampleC7 PyOpt.fls).bind (fun u => handle_ovrflw u PyOpt.fls)
      ≠ handle_ovrflw sampleC7 PyOpt.fls := by
  exact ⟨by decide, by decide, by decide⟩

/-- C7 (amended): the Overflow Normalizer is idempotent only away from the
`pd.NA` comparison trap: for every table whose scanned cells hold no
`pd.NA`, and every substitute that is either truthy (so the replacement is
a number or string, not `pd.NA`) or irrelevant because no scanned cell is
the sentinel, `clean(clean(T)) = clean(T)`; with the default falsy
substitute and a sentinel present, the second pass raises `TypeError` on
the `pd.NA` the first pass wrote (see the counterexample). -/
theorem handle_ovrflw_ok (t : Table) (integer : PyOpt)
    (hna : tableScanNaFree t = true) :
    handle_ovrflw t integer = Except.ok
      { index := t.index, cols := t.cols,
        rows := t.rows.map (cleanedCells integer t.cols.length 0) } := by
  have hall : ∀ row ∈ t.rows, noScannedNA t.cols.length 0 row = true := by
    simpa [tableScanNaFree, List.all_eq_true] using hna
  unfold handle_ovrflw
  rw [mapM_except_eq_ok_map _ _ t.rows (fun row hrow =>
    ovrflwScan_ok integer t.cols.length 0 row (hall row hrow))]
  rfl

theorem handle_ovrflw_idem_amended (t : Table) (integer : PyOpt)
    (hna : tableScanNaFree t = true)
    (hsub : integer.neFalse = true
      ∨ t.rows.all (noScannedSentinel t.cols.length 0) = true) :
    (handle_ovrflw t integer).bind (fun u => handle_ovrflw u integer)
      = handle_ovrflw t integer := by
  have hall : ∀ row ∈ t.rows, noScannedNA t.cols.length 0 row = true := by
    simpa [tableScanNaFree, List.all_eq_true] using hna
  have hsub2 : ∀ row ∈ t.rows,
      integer.neFalse = true ∨ noScannedSentinel t.cols.length 0 row = true := by
    rcases hsub with h | h
    · exact fun row _ => Or.inl h
    · exact fun row hrow => Or.inr (List.all_eq_true.mp h row hrow)
  have hna2 : tableScanNaFree
      { index := t.index, cols := t.cols,
        rows := t.rows.map (cleanedCells integer t.cols.length 0) } = true := by
    simp only [tableScanNaFree, List.all_eq_true]
    intro row hrow
    obtain ⟨row0, hrow0, rfl⟩ := List.mem_map.mp hrow
    exact cleanedCells_naFree integer t.cols.length 0 row0 (hall row0 hrow0)
      (hsub2 row0 hrow0)
  rw [handle_ovrflw_ok t integer hna, except_bind_ok, handle_ovrflw_ok _ integer hna2]
  simp only [List.map_map, Except.ok.injEq, Table.mk.injEq, true_and]
  refine List.map_congr_left ?_
  intro row hrow
  exact cleanedCells_idem integer t.cols.length 0 row

/-- Witness for `handle_ovrflw_idem_amended` at a concrete table. -/
theorem handle_ovrflw_idem_amended_witness :
    (tableScanNaFree sampleC7 = true ∧ (PyOpt.num 70000).neFalse = true) ∧
    (handle_ovrflw sampleC7 (PyOpt.num 70000)).bind
        (fun u => handle_ovrflw u (PyOpt.num 70000))
      = handle_ovrflw sampleC7 (PyOpt.num 70000) :=
  ⟨⟨by decide, by decide⟩,
    handle_ovrflw_idem_amended sampleC7 (PyOpt.num 70000) (by decide) (Or.inl (by decide))⟩

end Wellplate
